import Mathlib

/-!
Shallow embedding of the archetype/trait engine from world/archetypes.py.

The Python module stores every trait as a dict with keys such as
type, base, mod, min, max, name, extra; traits live in a table keyed by
short trait codes.  We embed the table as a function from an enumeration
of the 24 trait codes to a structure mirroring the per-trait dict.
Machine integers are Python arbitrary-precision ints, embedded as Int.
-/

set_option maxHeartbeats 1000000

/-- The 24 trait codes appearing in ALL_TRAITS in world/archetypes.py. -/
inductive TraitKey where
  | STR | PER | INT | DEX | CHA | VIT | MAG
  | HP | SP | BM | WM
  | FORT | REFL | WILL
  | ATKM | ATKR | ATKU | DEF | PP
  | LV | XP | ENC | MV | ACT
deriving DecidableEq, Fintype

/-- One trait record, mirroring the per-trait dicts of Archetype.__init__.
Python sets carry_factor, lift_factor and push_factor dynamically on the
STR trait object inside calculate_secondary_traits; they are absent until
then, hence Option fields defaulting to none.  The extra field carries the
XP level-boundary metadata. -/
structure TraitData where
  ttype : String
  base : Int
  mod : Int
  tmin : Option Int := none
  tmax : Option Int := none
  tname : String
  extra : Option (List Nat × String) := none
  carry_factor : Option Int := none
  lift_factor : Option Int := none
  push_factor : Option Int := none
deriving DecidableEq

/-- A live trait store: one TraitData per trait code (the dict
self.traits, or the character trait store copied from it). -/
abbrev TraitStore := TraitKey → TraitData

/-- The base trait table built by Archetype.__init__ (lines 218-250 of
world/archetypes.py), entry for entry. -/
def archetypeBaseTraits : TraitStore := fun k =>
  match k with
  | .STR => { ttype := "trait", base := 1, mod := 0, tname := "Strength" }
  | .PER => { ttype := "trait", base := 1, mod := 0, tname := "Perception" }
  | .INT => { ttype := "trait", base := 1, mod := 0, tname := "Intelligence" }
  | .DEX => { ttype := "trait", base := 1, mod := 0, tname := "Dexterity" }
  | .CHA => { ttype := "trait", base := 1, mod := 0, tname := "Charisma" }
  | .VIT => { ttype := "trait", base := 1, mod := 0, tname := "Vitality" }
  | .MAG => { ttype := "trait", base := 0, mod := 0, tname := "Magic" }
  | .BM => { ttype := "gauge", base := 0, mod := 0, tmin := some 0, tmax := some 0, tname := "Black Mana" }
  | .WM => { ttype := "gauge", base := 0, mod := 0, tmin := some 0, tmax := some 0, tname := "White Mana" }
  | .HP => { ttype := "gauge", base := 0, mod := 0, tname := "Health" }
  | .SP => { ttype := "gauge", base := 0, mod := 0, tname := "Stamina" }
  | .FORT => { ttype := "trait", base := 0, mod := 0, tname := "Fortitude Save" }
  | .REFL => { ttype := "trait", base := 0, mod := 0, tname := "Reflex Save" }
  | .WILL => { ttype := "trait", base := 0, mod := 0, tname := "Will Save" }
  | .ATKM => { ttype := "trait", base := 0, mod := 0, tname := "Melee Attack" }
  | .ATKR => { ttype := "trait", base := 0, mod := 0, tname := "Ranged Attack" }
  | .ATKU => { ttype := "trait", base := 0, mod := 0, tname := "Unarmed Attack" }
  | .DEF => { ttype := "trait", base := 0, mod := 0, tname := "Defense" }
  | .ACT => { ttype := "counter", base := 0, mod := 0, tmin := some 0, tname := "Action Points" }
  | .PP => { ttype := "counter", base := 0, mod := 0, tmin := some 0, tname := "Power Points" }
  | .ENC => { ttype := "counter", base := 0, mod := 0, tmin := some 0, tname := "Carry Weight" }
  | .MV => { ttype := "trait", base := 6, mod := 0, tname := "Movement Points" }
  | .LV => { ttype := "trait", base := 0, mod := 0, tname := "Level" }
  | .XP => { ttype := "trait", base := 0, mod := 0, tname := "Experience",
             extra := some ([500, 2000, 4500], "unlimited") }

/-- Update the base value of one trait in a store (a Python statement of
the form traits[k].base = v, or the constructor override
self.traits[k]["base"] = v). -/
def setBase (t : TraitStore) (k : TraitKey) (v : Int) : TraitStore :=
  fun j => if j = k then { t j with base := v } else t j

/-- Update the modifier of one trait in a store. -/
def setMod (t : TraitStore) (k : TraitKey) (v : Int) : TraitStore :=
  fun j => if j = k then { t j with mod := v } else t j

/-- Update the max bound of one trait (traits[k].max = v). -/
def setTMax (t : TraitStore) (k : TraitKey) (v : Int) : TraitStore :=
  fun j => if j = k then { t j with tmax := some v } else t j

/-- Set the carry_factor attribute on one trait. -/
def setCarry (t : TraitStore) (k : TraitKey) (v : Int) : TraitStore :=
  fun j => if j = k then { t j with carry_factor := some v } else t j

/-- Set the lift_factor attribute on one trait. -/
def setLift (t : TraitStore) (k : TraitKey) (v : Int) : TraitStore :=
  fun j => if j = k then { t j with lift_factor := some v } else t j

/-- Set the push_factor attribute on one trait. -/
def setPush (t : TraitStore) (k : TraitKey) (v : Int) : TraitStore :=
  fun j => if j = k then { t j with push_factor := some v } else t j

/-- Modelled from the spec: the trait handler supplying the actual
property is external to src (the Evennia trait system); the spec glossary
defines the actual value as base + modifier, optionally clamped to the
min/max bounds when they are defined.  Primary traits, the only traits
whose actual value this module reads, carry no bounds, so the clamping
branches are inert for every use below. -/
def actualVal (d : TraitData) : Int :=
  let v := d.base + d.mod
  let v := match d.tmin with
    | some m => max v m
    | none => v
  match d.tmax with
  | some m => min v m
  | none => v

/-- An archetype: a name (Python None until set by a subclass
constructor), a full trait table and a health-roll token, as in class
Archetype of world/archetypes.py. -/
structure Archetype where
  name : Option String
  traits : TraitStore
  health_roll : Option String

/-- A plain Archetype() instance: name None, base trait table,
health_roll None. -/
def baseArchetype : Archetype :=
  { name := none, traits := archetypeBaseTraits, health_roll := none }

/-- The Warrior subclass constructor: base table with the overrides of
lines 293-298, name Warrior, health roll 1d6+1. -/
def warriorArch : Archetype :=
  { name := some "Warrior"
    traits :=
      setBase (setBase (setBase (setBase (setBase (setBase
        archetypeBaseTraits .STR 6) .DEX 4) .CHA 4) .VIT 6) .PP 2) .MV 5
    health_roll := some "1d6+1" }

/-- The Scout subclass constructor: overrides of lines 278-281, name
Scout, health roll 1d6. -/
def scoutArch : Archetype :=
  { name := some "Scout"
    traits :=
      setBase (setBase (setBase (setBase
        archetypeBaseTraits .STR 4) .PER 6) .INT 6) .DEX 4
    health_roll := some "1d6" }

/-- The Arcanist subclass constructor: overrides of lines 261-266, name
Arcanist, health roll 1d6-1. -/
def arcanistArch : Archetype :=
  { name := some "Arcanist"
    traits :=
      setBase (setMod (setBase (setBase (setBase (setBase
        archetypeBaseTraits .PER 4) .INT 6) .CHA 4) .MAG 6) .SP (-2)) .MV 7
    health_roll := some "1d6-1" }

/-- ASCII uppercase of one character, the case mapping Python applies to
ASCII letters.  Spelled as an explicit letter table so that facts such as
upperChar c = Char.ofNat 45 only when c is already that character are
provable by case splitting. -/
def upperChar (c : Char) : Char :=
  match c with
  | 'a' => 'A' | 'b' => 'B' | 'c' => 'C' | 'd' => 'D' | 'e' => 'E'
  | 'f' => 'F' | 'g' => 'G' | 'h' => 'H' | 'i' => 'I' | 'j' => 'J'
  | 'k' => 'K' | 'l' => 'L' | 'm' => 'M' | 'n' => 'N' | 'o' => 'O'
  | 'p' => 'P' | 'q' => 'Q' | 'r' => 'R' | 's' => 'S' | 't' => 'T'
  | 'u' => 'U' | 'v' => 'V' | 'w' => 'W' | 'x' => 'X' | 'y' => 'Y'
  | 'z' => 'Z'
  | d => d

/-- ASCII lowercase of one character. -/
def lowerChar (c : Char) : Char :=
  match c with
  | 'A' => 'a' | 'B' => 'b' | 'C' => 'c' | 'D' => 'd' | 'E' => 'e'
  | 'F' => 'f' | 'G' => 'g' | 'H' => 'h' | 'I' => 'i' | 'J' => 'j'
  | 'K' => 'k' | 'L' => 'l' | 'M' => 'm' | 'N' => 'n' | 'O' => 'o'
  | 'P' => 'p' | 'Q' => 'q' | 'R' => 'r' | 'S' => 's' | 'T' => 't'
  | 'U' => 'u' | 'V' => 'v' | 'W' => 'w' | 'X' => 'x' | 'Y' => 'y'
  | 'Z' => 'z'
  | d => d

/-- Whether a character is an ASCII letter (the characters Python title
casing treats as cased word characters for the inputs in scope). -/
def isAsciiAlpha (c : Char) : Bool :=
  (('a' ≤ c ∧ c ≤ 'z') ∨ ('A' ≤ c ∧ c ≤ 'Z') : Prop)

/-- Python str.title over a character list: a letter is uppercased when
the previous character is not a letter and lowercased otherwise; other
characters pass through.  The Bool argument records whether the previous
character was a letter. -/
def titleAux (prevAlpha : Bool) (l : List Char) : List Char :=
  match l with
  | [] => []
  | c :: cs =>
      (if isAsciiAlpha c then (if prevAlpha then lowerChar c else upperChar c) else c)
        :: titleAux (isAsciiAlpha c) cs

/-- Python name.title(), restricted to ASCII inputs. -/
def pyTitle (s : String) : String := ⟨titleAux false s.data⟩

/-- Python name.capitalize(): first character uppercased, all remaining
characters lowercased. -/
def pyCapitalize (s : String) : String :=
  match s.data with
  | [] => ""
  | c :: cs => ⟨upperChar c :: cs.map lowerChar⟩

/-- Python membership test ch in s over the character list of s. -/
def hasChar (l : List Char) (d : Char) : Bool :=
  match l with
  | [] => false
  | c :: cs => if c = d then true else hasChar cs d

/-- Python s.split(sep, 1) for a one-character separator: the part before
the first occurrence and the part after it.  Only called when the
separator occurs in the string. -/
def splitFirst (l : List Char) (d : Char) : List Char × List Char :=
  match l with
  | [] => ([], [])
  | c :: cs =>
      if c = d then ([], cs)
      else
        let r := splitFirst cs d
        (c :: r.1, r.2)

/-- The exceptions the module can surface.  archetypeException models the
ArchetypeException class (the error taxonomy the spec calls
ArchetypeError); typeError and keyError model the built-in Python errors
reachable on inputs outside the documented domain. -/
inductive PyErr where
  | archetypeException (msg : String)
  | typeError
  | keyError
deriving DecidableEq

/-- Modelled from the spec: roll_max lives in world/rulebook.py, which is
not under src; the spec treats it as an opaque expected/maximal-value
comparator over health-roll tokens.  We give it the evident maximal-roll
values on the three tokens the module uses and 0 elsewhere. -/
def rollMax (s : String) : Int :=
  if s = "1d6-1" then 5
  else if s = "1d6" then 6
  else if s = "1d6+1" then 7
  else 0

/-- Python min(a, b, key=rollMax) over the two health-roll fields: the
argument with the smaller key, ties resolved to the first argument. -/
def healthRollMin (a b : Option String) : Option String :=
  match a, b with
  | some x, some y => some (if rollMax y < rollMax x then y else x)
  | _, _ => none

/-- The fixed dual-name lookup of _make_dual (the names dict over
frozenset pairs); none models a KeyError on an unlisted pair. -/
def dualName (an bn : String) : Option String :=
  if (an = "Warrior" ∧ bn = "Scout") ∨ (an = "Scout" ∧ bn = "Warrior") then
    some "Warrior-Scout"
  else if (an = "Warrior" ∧ bn = "Arcanist") ∨ (an = "Arcanist" ∧ bn = "Warrior") then
    some "Warrior-Arcanist"
  else if (an = "Scout" ∧ bn = "Arcanist") ∨ (an = "Arcanist" ∧ bn = "Scout") then
    some "Arcanist-Scout"
  else none

/-- The merged trait table built by the loop of _make_dual: a fresh base
table whose every base and mod is overwritten with the floor halved sum
of the two component values (both components always carry every key, so
the dict get default never fires); every other field keeps its base-table
value.  Python floor division is Int.fdiv. -/
def mergedTraits (a b : Archetype) : TraitStore := fun k =>
  { archetypeBaseTraits k with
      base := Int.fdiv ((a.traits k).base + (b.traits k).base) 2
      mod := Int.fdiv ((a.traits k).mod + (b.traits k).mod) 2 }

/-- The function _make_dual of world/archetypes.py.  A hyphen test on a
None name raises a TypeError in Python, modelled by PyErr.typeError.  The
Python line mutating the class name attribute has no observable effect on
the returned data and is not modelled. -/
def make_dual (a b : Archetype) : Except PyErr Archetype :=
  match a.name, b.name with
  | some an, some bn =>
      if hasChar an.data '-' ∨ hasChar bn.data '-' then
        Except.error (PyErr.archetypeException "Cannot create Triple-Archetype")
      else if an = bn then
        Except.error (PyErr.archetypeException "Cannot create dual of the same Archetype")
      else
        match dualName an bn with
        | some nm =>
            Except.ok
              { name := some nm
                traits := mergedTraits a b
                health_roll := healthRollMin a.health_roll b.health_roll }
        | none => Except.error PyErr.keyError
  | _, _ => Except.error PyErr.typeError

/-- The globals().get(name, None)() step of load_archetype, restricted to
the names it can actually produce.  The module globals also hold
functions, tuples and the exception class, but every such name contains
an underscore or an uppercase letter after the first letter of a word, so
it can never equal the title-cased lookup key; the four class names below
are the only reachable hits, and Archetype itself is among them.  A miss
(None is not callable, a TypeError) is reported by the caller as the
invalid-archetype error. -/
def globalsGet (n : String) : Option Archetype :=
  if n = "Arcanist" then some arcanistArch
  else if n = "Scout" then some scoutArch
  else if n = "Warrior" then some warriorArch
  else if n = "Archetype" then some baseArchetype
  else none

/-- Fuel-indexed body of load_archetype.  The recursion of the source
consumes one hyphen per level, so any fuel above the input length is
never exhausted; the fuel-zero branch is unreachable for the wrapper
below. -/
def loadArchAux (fuel : Nat) (s : String) : Except PyErr Archetype :=
  match fuel with
  | 0 => Except.error (PyErr.archetypeException "Invalid archetype specified.")
  | f + 1 =>
      let n := pyTitle s
      if hasChar n.data '-' then
        match loadArchAux f ⟨(splitFirst n.data '-').1⟩,
              loadArchAux f ⟨(splitFirst n.data '-').2⟩ with
        | Except.ok a, Except.ok b => make_dual a b
        | Except.error e, _ => Except.error e
        | _, Except.error e => Except.error e
      else
        match globalsGet n with
        | some arch => Except.ok arch
        | none => Except.error (PyErr.archetypeException "Invalid archetype specified.")

/-- The function load_archetype of world/archetypes.py. -/
def load_archetype (s : String) : Except PyErr Archetype :=
  loadArchAux (s.length + 1) s

/-- The slice of an Evennia character this module touches: the stored
archetype name and the live trait store (char.db.archetype and
char.db.traits). -/
structure Character where
  archetype : Option String
  traits : TraitStore

/-- The function apply_archetype of world/archetypes.py: capitalize the
requested name, require it among VALID_ARCHETYPES, compose a dual name
with any existing archetype unless reset, then load and install. -/
def apply_archetype (char : Character) (name : String) (reset : Bool) :
    Except PyErr Character :=
  let n := pyCapitalize name
  if n = "Arcanist" ∨ n = "Scout" ∨ n = "Warrior" then
    match
      (match char.archetype, reset with
       | some a, false =>
           if a = n then
             Except.error (PyErr.archetypeException ("Character is already a " ++ n))
           else
             Except.ok (a ++ "-" ++ n)
       | _, _ => Except.ok n) with
    | Except.error e => Except.error e
    | Except.ok n2 =>
        match load_archetype n2 with
        | Except.error e => Except.error e
        | Except.ok arch =>
            Except.ok { archetype := arch.name, traits := arch.traits }
  else
    Except.error (PyErr.archetypeException "Invalid archetype.")

/-- The ordered list PRIMARY_TRAITS. -/
def PRIMARY_TRAITS : List TraitKey :=
  [.STR, .PER, .INT, .DEX, .CHA, .VIT, .MAG]

/-- The constant TOTAL_PRIMARY_POINTS. -/
def TOTAL_PRIMARY_POINTS : Int := 30

/-- Sum of the base values of the primary traits, the generator
expression shared by the two budget functions. -/
def primarySum (t : TraitStore) : Int :=
  (PRIMARY_TRAITS.map fun k => (t k).base).sum

/-- The function get_remaining_allocation of world/archetypes.py. -/
def get_remaining_allocation (t : TraitStore) : Int :=
  TOTAL_PRIMARY_POINTS - primarySum t

/-- The function validate_primary_traits of world/archetypes.py. -/
def validate_primary_traits (t : TraitStore) : Bool × Option String :=
  if primarySum t > TOTAL_PRIMARY_POINTS then
    (false, some "Too many trait points allocated.")
  else if primarySum t < TOTAL_PRIMARY_POINTS then
    (false, some "Not enough trait points allocated.")
  else
    (true, none)

/-- The function calculate_secondary_traits of world/archetypes.py,
statement for statement; each numbered store is the state after one
Python assignment. -/
def calculate_secondary_traits (t0 : TraitStore) : TraitStore :=
  let t1 := setBase t0 .HP (actualVal (t0 .VIT))
  let t2 := setBase t1 .SP (actualVal (t1 .VIT))
  let t3 := setBase t2 .FORT (actualVal (t2 .VIT))
  let t4 := setBase t3 .REFL (actualVal (t3 .DEX))
  let t5 := setBase t4 .WILL (actualVal (t4 .INT))
  let t6 := setBase t5 .ATKM (actualVal (t5 .STR))
  let t7 := setBase t6 .ATKR (actualVal (t6 .PER))
  let t8 := setBase t7 .ATKU (actualVal (t7 .DEX))
  let t9 := setBase t8 .DEF (actualVal (t8 .DEX))
  let t10 := setTMax t9 .BM (if (t9 .MAG).base > 0 then 10 else 0)
  let t11 := setTMax t10 .WM (if (t10 .MAG).base > 0 then 10 else 0)
  let t12 := setCarry t11 .STR 10
  let t13 := setLift t12 .STR 20
  let t14 := setPush t13 .STR 40
  setTMax t14 .ENC (((t14 .STR).lift_factor.getD 0) * actualVal (t14 .STR))

/-- The concrete chargen allocation of the testable-properties section:
STR 9, PER 2, INT 1, DEX 5, CHA 4, VIT 9, MAG left at 0, all modifiers
left at 0. -/
def c2Store : TraitStore :=
  setBase (setBase (setBase (setBase (setBase (setBase
    archetypeBaseTraits .STR 9) .PER 2) .INT 1) .DEX 5) .CHA 4) .VIT 9

/-- A store summing to exactly 30 with one primary base far outside the
per-trait bound of 1..10 and a nonzero MAG: STR 24, MAG 1, the other five
primaries at their default 1. -/
def outOfBoundsStore : TraitStore :=
  setBase (setBase archetypeBaseTraits .STR 24) .MAG 1

/-- A store allocating more than 30 primary points: STR 40, the rest at
their defaults (sum 45). -/
def overStore : TraitStore :=
  setBase archetypeBaseTraits .STR 40

/-- Pointwise value of calculate_secondary_traits: unfolds the chain of
sequential updates into what each trait ends up as. -/
theorem calc_eval (t : TraitStore) (k : TraitKey) :
    calculate_secondary_traits t k =
      match k with
      | .HP => { t .HP with base := actualVal (t .VIT) }
      | .SP => { t .SP with base := actualVal (t .VIT) }
      | .FORT => { t .FORT with base := actualVal (t .VIT) }
      | .REFL => { t .REFL with base := actualVal (t .DEX) }
      | .WILL => { t .WILL with base := actualVal (t .INT) }
      | .ATKM => { t .ATKM with base := actualVal (t .STR) }
      | .ATKR => { t .ATKR with base := actualVal (t .PER) }
      | .ATKU => { t .ATKU with base := actualVal (t .DEX) }
      | .DEF => { t .DEF with base := actualVal (t .DEX) }
      | .BM => { t .BM with tmax := some (if (t .MAG).base > 0 then 10 else 0) }
      | .WM => { t .WM with tmax := some (if (t .MAG).base > 0 then 10 else 0) }
      | .STR => { t .STR with carry_factor := some 10, lift_factor := some 20,
                              push_factor := some 40 }
      | .ENC => { t .ENC with tmax := some (20 * actualVal (t .STR)) }
      | _ => t k := by
  cases k <;>
    simp [calculate_secondary_traits, setBase, setTMax, setCarry, setLift, setPush,
          actualVal]

/-- Case mapping cannot produce a hyphen from a non-hyphen. -/
theorem upperChar_eq_hyphen_iff (c : Char) : upperChar c = '-' ↔ c = '-' := by
  constructor
  · intro h
    unfold upperChar at h
    split at h <;> simp_all
  · intro h
    subst h
    rfl

/-- Case mapping cannot produce a hyphen from a non-hyphen. -/
theorem lowerChar_eq_hyphen_iff (c : Char) : lowerChar c = '-' ↔ c = '-' := by
  constructor
  · intro h
    unfold lowerChar at h
    split at h <;> simp_all
  · intro h
    subst h
    rfl

/-- Title casing neither creates nor removes hyphens. -/
theorem titleAux_hasChar_hyphen (l : List Char) (f : Bool) :
    hasChar (titleAux f l) '-' = hasChar l '-' := by
  induction l generalizing f with
  | nil => rfl
  | cons c cs ih =>
    have hhead :
        ((if isAsciiAlpha c then (if f then lowerChar c else upperChar c) else c) = '-')
          ↔ (c = '-') := by
      by_cases ha : isAsciiAlpha c
      · simp only [if_pos ha]
        by_cases hf : f
        · simp [hf, lowerChar_eq_hyphen_iff]
        · simp [hf, upperChar_eq_hyphen_iff]
      · simp [ha]
    simp only [titleAux, hasChar]
    by_cases hc : c = '-'
    · rw [if_pos hc, if_pos (hhead.mpr hc)]
    · rw [if_neg hc, if_neg (fun h => hc (hhead.mp h)), ih]

/-- Title casing neither creates nor removes hyphens, at string level. -/
theorem pyTitle_hasChar_hyphen (s : String) :
    hasChar (pyTitle s).data '-' = hasChar s.data '-' :=
  titleAux_hasChar_hyphen s.data false

/-- Evaluation of load_archetype on a name whose title-cased form holds
no hyphen: a straight lookup of the title-cased name. -/
theorem load_archetype_no_hyphen (s : String)
    (h : hasChar (pyTitle s).data '-' = false) :
    load_archetype s =
      match globalsGet (pyTitle s) with
      | some arch => Except.ok arch
      | none => Except.error (PyErr.archetypeException "Invalid archetype specified.") := by
  unfold load_archetype loadArchAux
  simp [h]

/-- Claim C2: calculate_secondary_traits assigns HP.base, SP.base and
FORT.base from VIT.actual, REFL.base, ATKU.base and DEF.base from
DEX.actual, WILL.base from INT.actual, ATKM.base from STR.actual,
ATKR.base from PER.actual, BM.max and WM.max as 10 exactly when MAG.base
is positive and 0 otherwise, and ENC.max as 20 times STR.actual; on the
store with primary actual values STR 9, PER 2, INT 1, DEX 5, CHA 4,
VIT 9 and MAG.base 0 (all primary modifiers 0) this yields HP 9, SP 9,
FORT 9, REFL 5, WILL 1, ATKM 9, ATKR 2, ATKU 5, DEF 5, BM.max 0,
WM.max 0 and ENC.max 180. -/
theorem c2_secondary_trait_assignments :
    (∀ t : TraitStore,
      (calculate_secondary_traits t .HP).base = actualVal (t .VIT) ∧
      (calculate_secondary_traits t .SP).base = actualVal (t .VIT) ∧
      (calculate_secondary_traits t .FORT).base = actualVal (t .VIT) ∧
      (calculate_secondary_traits t .REFL).base = actualVal (t .DEX) ∧
      (calculate_secondary_traits t .WILL).base = actualVal (t .INT) ∧
      (calculate_secondary_traits t .ATKM).base = actualVal (t .STR) ∧
      (calculate_secondary_traits t .ATKR).base = actualVal (t .PER) ∧
      (calculate_secondary_traits t .ATKU).base = actualVal (t .DEX) ∧
      (calculate_secondary_traits t .DEF).base = actualVal (t .DEX) ∧
      (calculate_secondary_traits t .BM).tmax =
        some (if (t .MAG).base > 0 then 10 else 0) ∧
      (calculate_secondary_traits t .WM).tmax =
        some (if (t .MAG).base > 0 then 10 else 0) ∧
      (calculate_secondary_traits t .ENC).tmax = some (20 * actualVal (t .STR))) ∧
    ((calculate_secondary_traits c2Store .HP).base = 9 ∧
     (calculate_secondary_traits c2Store .SP).base = 9 ∧
     (calculate_secondary_traits c2Store .FORT).base = 9 ∧
     (calculate_secondary_traits c2Store .REFL).base = 5 ∧
     (calculate_secondary_traits c2Store .WILL).base = 1 ∧
     (calculate_secondary_traits c2Store .ATKM).base = 9 ∧
     (calculate_secondary_traits c2Store .ATKR).base = 2 ∧
     (calculate_secondary_traits c2Store .ATKU).base = 5 ∧
     (calculate_secondary_traits c2Store .DEF).base = 5 ∧
     (calculate_secondary_traits c2Store .BM).tmax = some 0 ∧
     (calculate_secondary_traits c2Store .WM).tmax = some 0 ∧
     (calculate_secondary_traits c2Store .ENC).tmax = some 180) := by
  constructor
  · intro t
    repeat' apply And.intro
    all_goals simp [calc_eval]
  · repeat' apply And.intro
    all_goals decide

/-- Claim C7: calculate_secondary_traits is idempotent on every trait
store; running it a second time with unchanged primary traits leaves the
store exactly as after the first run. -/
theorem c7_calculate_secondary_traits_idempotent :
    ∀ t : TraitStore,
      calculate_secondary_traits (calculate_secondary_traits t) =
        calculate_secondary_traits t := by
  intro t
  funext k
  cases k <;> simp [calc_eval, actualVal]

/-- Claim C10: frame condition of calculate_secondary_traits: every
primary trait keeps its base and modifier (the six primaries other than
STR are untouched records, STR changes only in its three factor
attributes), PP, ACT, LV, XP and MV are untouched records, the nine
combat/save/secondary targets change only in base, and BM, WM and ENC
change only in max. -/
theorem c10_frame_condition :
    ∀ t : TraitStore,
      calculate_secondary_traits t .PER = t .PER ∧
      calculate_secondary_traits t .INT = t .INT ∧
      calculate_secondary_traits t .DEX = t .DEX ∧
      calculate_secondary_traits t .CHA = t .CHA ∧
      calculate_secondary_traits t .VIT = t .VIT ∧
      calculate_secondary_traits t .MAG = t .MAG ∧
      (calculate_secondary_traits t .STR).base = (t .STR).base ∧
      (calculate_secondary_traits t .STR).mod = (t .STR).mod ∧
      (calculate_secondary_traits t .STR).ttype = (t .STR).ttype ∧
      (calculate_secondary_traits t .STR).tmin = (t .STR).tmin ∧
      (calculate_secondary_traits t .STR).tmax = (t .STR).tmax ∧
      (calculate_secondary_traits t .STR).tname = (t .STR).tname ∧
      (calculate_secondary_traits t .STR).extra = (t .STR).extra ∧
      (calculate_secondary_traits t .STR).carry_factor = some 10 ∧
      (calculate_secondary_traits t .STR).lift_factor = some 20 ∧
      (calculate_secondary_traits t .STR).push_factor = some 40 ∧
      calculate_secondary_traits t .PP = t .PP ∧
      calculate_secondary_traits t .ACT = t .ACT ∧
      calculate_secondary_traits t .LV = t .LV ∧
      calculate_secondary_traits t .XP = t .XP ∧
      calculate_secondary_traits t .MV = t .MV ∧
      calculate_secondary_traits t .HP =
        { t .HP with base := (calculate_secondary_traits t .HP).base } ∧
      calculate_secondary_traits t .SP =
        { t .SP with base := (calculate_secondary_traits t .SP).base } ∧
      calculate_secondary_traits t .FORT =
        { t .FORT with base := (calculate_secondary_traits t .FORT).base } ∧
      calculate_secondary_traits t .REFL =
        { t .REFL with base := (calculate_secondary_traits t .REFL).base } ∧
      calculate_secondary_traits t .WILL =
        { t .WILL with base := (calculate_secondary_traits t .WILL).base } ∧
      calculate_secondary_traits t .ATKM =
        { t .ATKM with base := (calculate_secondary_traits t .ATKM).base } ∧
      calculate_secondary_traits t .ATKR =
        { t .ATKR with base := (calculate_secondary_traits t .ATKR).base } ∧
      calculate_secondary_traits t .ATKU =
        { t .ATKU with base := (calculate_secondary_traits t .ATKU).base } ∧
      calculate_secondary_traits t .DEF =
        { t .DEF with base := (calculate_secondary_traits t .DEF).base } ∧
      calculate_secondary_traits t .BM =
        { t .BM with tmax := (calculate_secondary_traits t .BM).tmax } ∧
      calculate_secondary_traits t .WM =
        { t .WM with tmax := (calculate_secondary_traits t .WM).tmax } ∧
      calculate_secondary_traits t .ENC =
        { t .ENC with tmax := (calculate_secondary_traits t .ENC).tmax } := by
  intro t
  repeat' apply And.intro
  all_goals simp [calc_eval]

/-- The generator-expression sum of the seven primary bases written out
as a plain seven-term sum. -/
theorem primarySum_explicit (t : TraitStore) :
    primarySum t =
      (t .STR).base + (t .PER).base + (t .INT).base + (t .DEX).base +
        (t .CHA).base + (t .VIT).base + (t .MAG).base := by
  simp [primarySum, PRIMARY_TRAITS]
  omega

/-- Claim C9: get_remaining_allocation returns exactly 30 minus the sum
of the seven primary trait bases, negative when over 30 points are
allocated; the embedding is a pure function of the store, which it does
not change. -/
theorem c9_remaining_allocation :
    ∀ t : TraitStore,
      get_remaining_allocation t =
        30 - ((t .STR).base + (t .PER).base + (t .INT).base + (t .DEX).base +
              (t .CHA).base + (t .VIT).base + (t .MAG).base) ∧
      ((t .STR).base + (t .PER).base + (t .INT).base + (t .DEX).base +
          (t .CHA).base + (t .VIT).base + (t .MAG).base > 30 →
        get_remaining_allocation t < 0) := by
  intro t
  have hs := primarySum_explicit t
  constructor
  · simp only [get_remaining_allocation, TOTAL_PRIMARY_POINTS, hs]
  · intro h
    simp only [get_remaining_allocation, TOTAL_PRIMARY_POINTS, hs]
    omega

/-- Witness for Claim C9: the store with STR 40 and the remaining
primaries at defaults allocates 45 points, and the remaining allocation
is negative there. -/
theorem c9_remaining_allocation_witness :
    ((overStore .STR).base + (overStore .PER).base + (overStore .INT).base +
        (overStore .DEX).base + (overStore .CHA).base + (overStore .VIT).base +
        (overStore .MAG).base > 30) ∧
      get_remaining_allocation overStore < 0 :=
  ⟨by decide, (c9_remaining_allocation overStore).2 (by decide)⟩

/-- Claim C4: validate_primary_traits fails with the too-many message
above 30 points, fails with the too-few message below 30, and passes
with no message exactly when the primary bases sum to 30; no per-trait
bound is checked. -/
theorem c4_validate_primary_traits :
    ∀ t : TraitStore,
      ((t .STR).base + (t .PER).base + (t .INT).base + (t .DEX).base +
          (t .CHA).base + (t .VIT).base + (t .MAG).base > 30 →
        validate_primary_traits t = (false, some "Too many trait points allocated.")) ∧
      ((t .STR).base + (t .PER).base + (t .INT).base + (t .DEX).base +
          (t .CHA).base + (t .VIT).base + (t .MAG).base < 30 →
        validate_primary_traits t = (false, some "Not enough trait points allocated.")) ∧
      (validate_primary_traits t = (true, none) ↔
        (t .STR).base + (t .PER).base + (t .INT).base + (t .DEX).base +
          (t .CHA).base + (t .VIT).base + (t .MAG).base = 30) := by
  intro t
  have hs := primarySum_explicit t
  refine ⟨fun h => ?_, fun h => ?_, ?_⟩
  · simp only [validate_primary_traits, TOTAL_PRIMARY_POINTS, hs]
    rw [if_pos h]
  · simp only [validate_primary_traits, TOTAL_PRIMARY_POINTS, hs]
    rw [if_neg (by omega), if_pos h]
  · simp only [validate_primary_traits, TOTAL_PRIMARY_POINTS, hs]
    constructor
    · intro hv
      split_ifs at hv with h1 h2
      · simp at hv
      · simp at hv
      · omega
    · intro h30
      rw [if_neg (by omega), if_neg (by omega)]

/-- Witness for Claim C4: the store with STR 24 (outside the 1..10
per-trait bound) and MAG 1 sums to exactly 30 and passes validation. -/
theorem c4_validate_primary_traits_witness :
    ((outOfBoundsStore .STR).base + (outOfBoundsStore .PER).base +
        (outOfBoundsStore .INT).base + (outOfBoundsStore .DEX).base +
        (outOfBoundsStore .CHA).base + (outOfBoundsStore .VIT).base +
        (outOfBoundsStore .MAG).base = 30) ∧
      (outOfBoundsStore .STR).base = 24 ∧
      (outOfBoundsStore .MAG).base = 1 ∧
      validate_primary_traits outOfBoundsStore = (true, none) :=
  ⟨by decide, by decide, by decide,
    (c4_validate_primary_traits outOfBoundsStore).2.2.mpr (by decide)⟩

/-- Counterexample to Claim C5 as stated: merging an archetype with
itself is claimed to raise the self-dual message, but when the shared
name is hyphenated (a dual merged with itself has equal component names)
the code raises the triple-archetype message instead, because the hyphen
check runs first. -/
theorem c5_self_dual_counterexample :
    make_dual ⟨some "Warrior-Scout", archetypeBaseTraits, none⟩
        ⟨some "Warrior-Scout", archetypeBaseTraits, none⟩ =
      Except.error (PyErr.archetypeException "Cannot create Triple-Archetype") ∧
    (PyErr.archetypeException "Cannot create Triple-Archetype" ≠
      PyErr.archetypeException "Cannot create dual of the same Archetype") :=
  ⟨rfl, by decide⟩

/-- Claim C5 (amended): merging when either component name contains a
hyphen raises the triple-archetype error, and merging two archetypes
with equal hyphen-free names raises the self-dual error (the hyphen
check takes precedence when both conditions hold); in both cases no
merged archetype is produced. -/
theorem c5_merge_error_conditions :
    ∀ a b : Archetype, ∀ an bn : String,
      a.name = some an → b.name = some bn →
      ((hasChar an.data '-' = true ∨ hasChar bn.data '-' = true) →
        make_dual a b =
          Except.error (PyErr.archetypeException "Cannot create Triple-Archetype")) ∧
      (hasChar an.data '-' = false → hasChar bn.data '-' = false → an = bn →
        make_dual a b =
          Except.error
            (PyErr.archetypeException "Cannot create dual of the same Archetype")) := by
  intro a b an bn ha hb
  constructor
  · intro h
    simp only [make_dual, ha, hb]
    rw [if_pos h]
  · intro h1 h2 h3
    simp only [make_dual, ha, hb]
    rw [if_neg (by simp [h1, h2]), if_pos h3]

/-- Witness for Claim C5 (amended): a self-dual attempt on Warrior gives
the self-dual error, and a dual component with a hyphenated name gives
the triple-archetype error. -/
theorem c5_merge_error_conditions_witness :
    make_dual warriorArch warriorArch =
      Except.error
        (PyErr.archetypeException "Cannot create dual of the same Archetype") ∧
    make_dual ⟨some "Warrior-Scout", archetypeBaseTraits, none⟩ warriorArch =
      Except.error (PyErr.archetypeException "Cannot create Triple-Archetype") :=
  ⟨(c5_merge_error_conditions warriorArch warriorArch "Warrior" "Warrior" rfl rfl).2
      (by decide) (by decide) rfl,
    (c5_merge_error_conditions ⟨some "Warrior-Scout", archetypeBaseTraits, none⟩
        warriorArch "Warrior-Scout" "Warrior" rfl rfl).1 (Or.inl (by decide))⟩

/-- Counterexample to Claim C6 as stated: the input archetype is
non-hyphenated and its title-cased form matches none of the three known
archetypes, yet load_archetype returns a nameless base Archetype
instance instead of raising, because the reflective globals lookup also
resolves the base class name. -/
theorem c6_base_archetype_counterexample :
    load_archetype "archetype" = Except.ok baseArchetype ∧
    baseArchetype.name = none ∧
    pyTitle "archetype" = "Archetype" ∧
    pyTitle "archetype" ≠ "Arcanist" ∧
    pyTitle "archetype" ≠ "Scout" ∧
    pyTitle "archetype" ≠ "Warrior" :=
  ⟨rfl, rfl, by decide, by decide, by decide, by decide⟩

/-- Claim C6 (amended): for every non-hyphenated input string,
load_archetype returns the matching archetype when the title-cased name
is one of Arcanist, Scout or Warrior (hence any letter case of those
names), returns a nameless base Archetype when it is Archetype, and
raises the invalid-archetype error in every other case. -/
theorem c6_loader_domain :
    ∀ s : String, hasChar s.data '-' = false →
      (pyTitle s = "Arcanist" → load_archetype s = Except.ok arcanistArch) ∧
      (pyTitle s = "Scout" → load_archetype s = Except.ok scoutArch) ∧
      (pyTitle s = "Warrior" → load_archetype s = Except.ok warriorArch) ∧
      (pyTitle s = "Archetype" → load_archetype s = Except.ok baseArchetype) ∧
      (pyTitle s ≠ "Arcanist" → pyTitle s ≠ "Scout" → pyTitle s ≠ "Warrior" →
        pyTitle s ≠ "Archetype" →
        load_archetype s =
          Except.error (PyErr.archetypeException "Invalid archetype specified.")) := by
  intro s hs
  have h0 : hasChar (pyTitle s).data '-' = false := by
    rw [pyTitle_hasChar_hyphen]
    exact hs
  have hl := load_archetype_no_hyphen s h0
  refine ⟨fun h => ?_, fun h => ?_, fun h => ?_, fun h => ?_, fun h1 h2 h3 h4 => ?_⟩
  · rw [hl, h]
    rfl
  · rw [hl, h]
    rfl
  · rw [hl, h]
    rfl
  · rw [hl, h]
    rfl
  · rw [hl]
    simp [globalsGet, h1, h2, h3, h4]

/-- Witness for Claim C6 (amended): an all-caps spelling of Arcanist
loads the Arcanist archetype, and an unknown name is rejected with the
invalid-archetype error. -/
theorem c6_loader_domain_witness :
    load_archetype "ARCANIST" = Except.ok arcanistArch ∧
    load_archetype "gibberish" =
      Except.error (PyErr.archetypeException "Invalid archetype specified.") :=
  ⟨(c6_loader_domain "ARCANIST" (by decide)).1 (by decide),
    (c6_loader_domain "gibberish" (by decide)).2.2.2.2 (by decide) (by decide)
      (by decide) (by decide)⟩

/-- Claim C8: a freshly loaded Warrior has STR 6, DEX 4, CHA 4, VIT 6,
PP.base 2, MV.base 5 and health roll 1d6+1; a fresh Scout has STR 4,
PER 6, INT 6, DEX 4, the default MV.base 6 and health roll 1d6; a fresh
Arcanist has PER 4, INT 6, CHA 4, MAG 6, SP.mod -2, MV.base 7 and health
roll 1d6-1; every non-overridden trait equals the base Archetype default,
whose primary bases are 1 with MAG at 0, all modifiers 0 and BM/WM max 0. -/
theorem c8_fresh_archetype_tables :
    ((warriorArch.traits .STR).base = 6 ∧
     (warriorArch.traits .DEX).base = 4 ∧
     (warriorArch.traits .CHA).base = 4 ∧
     (warriorArch.traits .VIT).base = 6 ∧
     (warriorArch.traits .PP).base = 2 ∧
     (warriorArch.traits .MV).base = 5 ∧
     warriorArch.health_roll = some "1d6+1" ∧
     (∀ k : TraitKey, k ∉ ([.STR, .DEX, .CHA, .VIT, .PP, .MV] : List TraitKey) →
       warriorArch.traits k = archetypeBaseTraits k)) ∧
    ((scoutArch.traits .STR).base = 4 ∧
     (scoutArch.traits .PER).base = 6 ∧
     (scoutArch.traits .INT).base = 6 ∧
     (scoutArch.traits .DEX).base = 4 ∧
     (scoutArch.traits .MV).base = 6 ∧
     scoutArch.health_roll = some "1d6" ∧
     (∀ k : TraitKey, k ∉ ([.STR, .PER, .INT, .DEX] : List TraitKey) →
       scoutArch.traits k = archetypeBaseTraits k)) ∧
    ((arcanistArch.traits .PER).base = 4 ∧
     (arcanistArch.traits .INT).base = 6 ∧
     (arcanistArch.traits .CHA).base = 4 ∧
     (arcanistArch.traits .MAG).base = 6 ∧
     (arcanistArch.traits .SP).mod = -2 ∧
     (arcanistArch.traits .MV).base = 7 ∧
     arcanistArch.health_roll = some "1d6-1" ∧
     (∀ k : TraitKey, k ∉ ([.PER, .INT, .CHA, .MAG, .SP, .MV] : List TraitKey) →
       arcanistArch.traits k = archetypeBaseTraits k)) ∧
    ((archetypeBaseTraits .STR).base = 1 ∧
     (archetypeBaseTraits .PER).base = 1 ∧
     (archetypeBaseTraits .INT).base = 1 ∧
     (archetypeBaseTraits .DEX).base = 1 ∧
     (archetypeBaseTraits .CHA).base = 1 ∧
     (archetypeBaseTraits .VIT).base = 1 ∧
     (archetypeBaseTraits .MAG).base = 0 ∧
     (∀ k : TraitKey, (archetypeBaseTraits k).mod = 0) ∧
     (archetypeBaseTraits .BM).tmax = some 0 ∧
     (archetypeBaseTraits .WM).tmax = some 0) := by
  repeat' apply And.intro
  all_goals decide

/-- Witness for Claim C8: the Warrior does not override the level trait,
which therefore equals the base default. -/
theorem c8_fresh_archetype_tables_witness :
    warriorArch.traits .LV = archetypeBaseTraits .LV :=
  c8_fresh_archetype_tables.1.2.2.2.2.2.2.2 TraitKey.LV (by decide)

/-- Claim C1: for each unordered pair of base archetypes, loading the
hyphenated name in either order yields the same trait table, whose every
base and modifier is the floor of half the sum of the corresponding
values of the two freshly loaded single archetypes, under the canonical
pair name (Warrior-Scout, Warrior-Arcanist, Arcanist-Scout) regardless
of argument order. -/
theorem c1_dual_archetype_merge :
    load_archetype "Warrior" = Except.ok warriorArch ∧
    load_archetype "Scout" = Except.ok scoutArch ∧
    load_archetype "Arcanist" = Except.ok arcanistArch ∧
    load_archetype "Warrior-Scout" =
      Except.ok ⟨some "Warrior-Scout", mergedTraits warriorArch scoutArch, some "1d6"⟩ ∧
    load_archetype "Scout-Warrior" =
      Except.ok ⟨some "Warrior-Scout", mergedTraits scoutArch warriorArch, some "1d6"⟩ ∧
    load_archetype "Warrior-Arcanist" =
      Except.ok
        ⟨some "Warrior-Arcanist", mergedTraits warriorArch arcanistArch, some "1d6-1"⟩ ∧
    load_archetype "Arcanist-Warrior" =
      Except.ok
        ⟨some "Warrior-Arcanist", mergedTraits arcanistArch warriorArch, some "1d6-1"⟩ ∧
    load_archetype "Scout-Arcanist" =
      Except.ok
        ⟨some "Arcanist-Scout", mergedTraits scoutArch arcanistArch, some "1d6-1"⟩ ∧
    load_archetype "Arcanist-Scout" =
      Except.ok
        ⟨some "Arcanist-Scout", mergedTraits arcanistArch scoutArch, some "1d6-1"⟩ ∧
    (∀ a b : Archetype, ∀ k : TraitKey,
      (mergedTraits a b k).base = Int.fdiv ((a.traits k).base + (b.traits k).base) 2 ∧
      (mergedTraits a b k).mod = Int.fdiv ((a.traits k).mod + (b.traits k).mod) 2 ∧
      mergedTraits a b k = mergedTraits b a k) := by
  refine ⟨rfl, rfl, rfl, rfl, rfl, rfl, rfl, rfl, rfl, ?_⟩
  intro a b k
  refine ⟨rfl, rfl, ?_⟩
  simp [mergedTraits, Int.add_comm]

/-- Claim C3: applying warrior (lowercase) to a character with no
archetype installs the name Warrior and the full Warrior trait table
whatever the prior store held; re-applying Warrior without reset raises
the already-applied error; applying Scout instead installs the name
Warrior-Scout and the merged dual trait table. -/
theorem c3_apply_archetype_progression :
    (∀ t0 : TraitStore,
      apply_archetype ⟨none, t0⟩ "warrior" false =
        Except.ok ⟨some "Warrior", warriorArch.traits⟩) ∧
    apply_archetype ⟨some "Warrior", warriorArch.traits⟩ "Warrior" false =
      Except.error (PyErr.archetypeException "Character is already a Warrior") ∧
    apply_archetype ⟨some "Warrior", warriorArch.traits⟩ "Scout" false =
      Except.ok ⟨some "Warrior-Scout", mergedTraits warriorArch scoutArch⟩ :=
  ⟨fun _ => rfl, rfl, rfl⟩
